import Mathlib

/-!
Verification of the client-side session layer of `ikozlov666/aiagent`:
the zustand session store (`src/frontend/src/stores/useStore.js`), the
WebSocket hook with heartbeat watchdog and reconnect policy
(`src/frontend/src/hooks/useWebSocket.js`) and the two view classifiers
(the `AgentActivity` component and the `ProcessDialog` component in
`src/frontend/src/components/Editor/Editor.jsx`).

The JavaScript is shallowly embedded: the store is a record `StoreState`,
each zustand action is a pure function `StoreState → StoreState`, and the
`handleMessage` dispatcher mirrors the `switch` on `data.type`.  JavaScript
`undefined`/missing fields are `Option`, `x || y` on strings is `jsOr`,
`x ?? y` is `Option.getD`.  Wall-clock stamps (`Date.now()` message ids and
timestamps) carry no claim-relevant information and are elided from
`ChatMessage`.
-/

namespace AiAgent

/-- JavaScript `a || b` for strings: the empty string is falsy. -/
def jsOr (a b : String) : String := if a = "" then b else a

/-- JavaScript `a || b` where `a` is a possibly-missing string:
`undefined` and `""` are falsy. -/
def jsOrOpt (a : Option String) (b : String) : String :=
  match a with
  | none => b
  | some s => if s = "" then b else s

/-- One attached file in an outbound turn (`{ filename, content }`). -/
structure AttachedFile where
  filename : String
  content : String
deriving DecidableEq, Repr

/-- The `tool_result` companion payload (`{success, error, ...}`). -/
structure ToolResult where
  success : Bool
  errorText : Option String := none
deriving DecidableEq, Repr

/-- A decoded inbound wire frame, the `data` object of `handleMessage` in
`useWebSocket.js`.  Fields that a given `type` does not use stay `none`;
`ports` maps container ports to host ports. -/
structure WsData where
  type : String
  step_type : Option String := none
  content : Option String := none
  ports : Option (List (String × Nat)) := none
  project_id : Option String := none
  step_number : Option Nat := none
  tool_name : Option String := none
  tool_args : Option String := none
  tool_result : Option ToolResult := none
deriving DecidableEq, Repr

/-- A chat history entry, as built by `addMessage` in `useStore.js`
(wall-clock `id`/`timestamp` stamps elided). -/
structure ChatMessage where
  role : String
  content : Option String := none
  images : Option (List String) := none
  attachedFiles : Option (List AttachedFile) := none
deriving DecidableEq, Repr

/-- The protocol-handling slice of the zustand store in `useStore.js`:
chat history, step history, the two streaming buffers, the status enum,
the published port mapping and the socket handle (`ws`/`wsConnected`).
Sockets are identified by numeric ids. -/
structure StoreState where
  messages : List ChatMessage := []
  streamingContent : String := ""
  liveAssistantContent : String := ""
  agentSteps : List WsData := []
  agentStatus : String := "idle"
  projectPorts : List (String × Nat) := []
  ws : Option Nat := none
  wsConnected : Bool := false
deriving DecidableEq, Repr

/-- The store's initial state (`useStore.js` top-level initializers). -/
def initialStoreState : StoreState := {}

/-- Action `addMessage` in `useStore.js`: append, clear `streamingContent` on an
assistant message, clear `liveAssistantContent` on a user message. -/
def addMessage (m : ChatMessage) (s : StoreState) : StoreState :=
  { s with
    messages := s.messages ++ [m]
    streamingContent := if m.role = "assistant" then "" else s.streamingContent
    liveAssistantContent := if m.role = "user" then "" else s.liveAssistantContent }

/-- Action `addStreamingChunk` in `useStore.js`:
`(state.streamingContent || '') + (chunk || '')`. -/
def addStreamingChunk (chunk : String) (s : StoreState) : StoreState :=
  { s with streamingContent := jsOr s.streamingContent "" ++ jsOr chunk "" }

/-- Action `clearStreamingContent` in `useStore.js`. -/
def clearStreamingContent (s : StoreState) : StoreState :=
  { s with streamingContent := "" }

/-- Action `setLiveAssistantContent` in `useStore.js`: `text ?? ''`. -/
def setLiveAssistantContent (text : Option String) (s : StoreState) : StoreState :=
  { s with liveAssistantContent := text.getD "" }

/-- Action `addAgentStep` in `useStore.js`. -/
def addAgentStep (step : WsData) (s : StoreState) : StoreState :=
  { s with agentSteps := s.agentSteps ++ [step] }

/-- Action `clearAgentSteps` in `useStore.js`. -/
def clearAgentSteps (s : StoreState) : StoreState :=
  { s with agentSteps := [] }

/-- Action `setAgentStatus` in `useStore.js`. -/
def setAgentStatus (status : String) (s : StoreState) : StoreState :=
  { s with agentStatus := status }

/-- Action `setWs` in `useStore.js`: `set({ ws, wsConnected: !!ws })`. -/
def setWs (w : Option Nat) (s : StoreState) : StoreState :=
  { s with ws := w, wsConnected := w.isSome }

/-- Action `updatePorts` in `useStore.js`. -/
def updatePorts (ports : List (String × Nat)) (s : StoreState) : StoreState :=
  { s with projectPorts := ports }

/-- The step record built in the `agent_step` branch:
`{ ...data, type: data.step_type || data.type }`. -/
def toStep (d : WsData) : WsData :=
  { d with type := jsOrOpt d.step_type d.type }

/-- Function `handleMessage` in `useWebSocket.js` (store effects only; the
heartbeat reset on line 32 is modelled at the connection layer).  Each
branch mirrors the corresponding `case` of the `switch`. -/
def handleMessage (d : WsData) (s : StoreState) : StoreState :=
  if d.type = "heartbeat" then s
  else if d.type = "agent_stream_chunk" then
    setAgentStatus "working" (addStreamingChunk (jsOrOpt d.content "") s)
  else if d.type = "connected" then
    updatePorts (d.ports.getD []) s
  else if d.type = "agent_step" then
    let s1 := addAgentStep (toStep d) s
    let stepType := jsOrOpt d.step_type d.type
    let content := (jsOrOpt d.content "").trim
    if stepType = "thinking" then
      setLiveAssistantContent (some (jsOr content "Думаю...")) (setAgentStatus "thinking" s1)
    else if stepType = "llm_text" then
      setLiveAssistantContent (some (jsOr content "")) (setAgentStatus "working" s1)
    else if stepType = "tool_call" ∨ stepType = "tool_result" then
      setAgentStatus "working" s1
    else s1
  else if d.type = "agent_response" then
    setAgentStatus "done" (setLiveAssistantContent (some "")
      (clearStreamingContent (addMessage { role := "assistant", content := d.content } s)))
  else if d.type = "agent_stopped" then
    setAgentStatus "idle" (setLiveAssistantContent (some "")
      (clearStreamingContent (addMessage
        { role := "assistant", content := some (jsOrOpt d.content "⏹️ Агент остановлен") } s)))
  else if d.type = "ports_update" then
    updatePorts (d.ports.getD []) s
  else if d.type = "error" then
    setAgentStatus "error" (setLiveAssistantContent (some "")
      (clearStreamingContent (addMessage { role := "error", content := d.content } s)))
  else if d.type = "user_message" then s
  else s

/-- Handler `ws.onmessage` in `useWebSocket.js`: `JSON.parse` may throw, the
exception is caught and logged and the frame is dropped; `none` stands for
a payload on which the parse threw. -/
def wsOnMessage (parsed : Option WsData) (s : StoreState) : StoreState :=
  match parsed with
  | none => s
  | some d => handleMessage d s

/-- Fold `handleMessage` over a sequence of decoded inbound messages. -/
def processAll (msgs : List WsData) (s : StoreState) : StoreState :=
  msgs.foldl (fun a d => handleMessage d a) s

/-! ## Connection manager and heartbeat watchdog (`useWebSocket.js`) -/

/-- WebSocket `readyState` values. -/
inductive ReadyState where
  | connecting
  | opened
  | closing
  | closed
deriving DecidableEq, Repr

/-- One socket instance, identified by a numeric id. -/
structure Socket where
  id : Nat
  readyState : ReadyState
deriving DecidableEq, Repr

/-- The refs held by `useWebSocket`: `wsRef`, `isConnectingRef`,
`reconnectTimeout` (as a pending flag), `heartbeatTimer` (as an absolute
deadline), plus the pool of all sockets created so far (`nextId` names the
next fresh socket id). -/
structure ConnManager where
  projectId : Option String := none
  sockets : List Socket := []
  wsRef : Option Nat := none
  isConnecting : Bool := false
  reconnectPending : Bool := false
  heartbeatDeadline : Option Nat := none
  nextId : Nat := 0
deriving DecidableEq, Repr

/-- Constant `HEARTBEAT_TIMEOUT_MS` in `useWebSocket.js`. -/
def HEARTBEAT_TIMEOUT_MS : Nat := 45000

/-- Ready state of the socket with a given id. -/
def readyStateOf (m : ConnManager) (sid : Nat) : Option ReadyState :=
  (m.sockets.find? (fun k => k.id = sid)).map Socket.readyState

/-- Ready state of `wsRef.current`, when set. -/
def currentReadyState (m : ConnManager) : Option ReadyState :=
  match m.wsRef with
  | none => none
  | some sid => readyStateOf m sid

/-- Effect of a `ws.close(...)` call on the socket pool: a CONNECTING or
OPEN socket moves to CLOSING; on an already CLOSING/CLOSED socket the call
does nothing. -/
def closeSocket (sockets : List Socket) (sid : Nat) : List Socket :=
  sockets.map (fun k =>
    if k.id = sid ∧ (k.readyState = ReadyState.connecting ∨ k.readyState = ReadyState.opened)
    then { k with readyState := ReadyState.closing } else k)

/-- Transport-level completion of a close: the socket reaches CLOSED. -/
def markClosed (sockets : List Socket) (sid : Nat) : List Socket :=
  sockets.map (fun k => if k.id = sid then { k with readyState := ReadyState.closed } else k)

/-- Transport-level completion of a connection attempt: the socket
reaches OPEN. -/
def markOpened (sockets : List Socket) (sid : Nat) : List Socket :=
  sockets.map (fun k => if k.id = sid then { k with readyState := ReadyState.opened } else k)

/-- Function `resetHeartbeatTimer`: clear the previous timer and start a single new
one, due `HEARTBEAT_TIMEOUT_MS` from now. -/
def resetHeartbeatTimer (now : Nat) (m : ConnManager) : ConnManager :=
  { m with heartbeatDeadline := some (now + HEARTBEAT_TIMEOUT_MS) }

/-- The heartbeat timer fires: if the current socket is OPEN it is closed
with code 4000 (`Heartbeat timeout`).  Returns the issued close call as
`(socket id, close code)`. -/
def heartbeatFire (m : ConnManager) : ConnManager × Option (Nat × Nat) :=
  match m.wsRef with
  | some sid =>
    if readyStateOf m sid = some ReadyState.opened then
      ({ m with sockets := closeSocket m.sockets sid, heartbeatDeadline := none },
        some (sid, 4000))
    else ({ m with heartbeatDeadline := none }, none)
  | none => ({ m with heartbeatDeadline := none }, none)

/-- Function `connect` in `useWebSocket.js`: no-op without a project id, while a
connection attempt is in flight, or while the current socket is CONNECTING
or OPEN; otherwise close any stale socket, clear a pending reconnect and
open a fresh socket (which starts CONNECTING). -/
def connect (m : ConnManager) : ConnManager :=
  if m.projectId.isNone then m
  else if m.isConnecting ∨ currentReadyState m = some ReadyState.connecting then m
  else if currentReadyState m = some ReadyState.opened then m
  else
    { m with
      isConnecting := true
      sockets := (match m.wsRef with
        | some sid => closeSocket m.sockets sid
        | none => m.sockets)
        ++ [{ id := m.nextId, readyState := ReadyState.connecting }]
      reconnectPending := false
      wsRef := some m.nextId
      nextId := m.nextId + 1 }

/-- Handler `ws.onopen`: the transport opens a CONNECTING socket, then the handler
clears the connecting flag, arms the watchdog and publishes the socket to
the store.  An open event never fires on a socket that is not CONNECTING. -/
def wsOnOpen (now : Nat) (sid : Nat) (m : ConnManager) (s : StoreState) :
    ConnManager × StoreState :=
  if readyStateOf m sid = some ReadyState.connecting then
    ({ m with
        sockets := markOpened m.sockets sid
        isConnecting := false
        heartbeatDeadline := some (now + HEARTBEAT_TIMEOUT_MS) },
      setWs (some sid) s)
  else (m, s)

/-- Handler `ws.onclose`: the socket reaches CLOSED, the handler clears the
connecting flag, disarms the watchdog and clears the published socket;
if the code is not 1000, no reconnect is pending and the closed socket is
still `wsRef.current`, a reconnect is scheduled with delay 1000 ms for
code 4000 and 5000 ms otherwise.  Returns the scheduled delay, if any. -/
def wsOnClose (sid : Nat) (code : Nat) (m : ConnManager) (s : StoreState) :
    (ConnManager × StoreState) × Option Nat :=
  let m1 := { m with
    sockets := markClosed m.sockets sid
    isConnecting := false
    heartbeatDeadline := none }
  let s1 := setWs none s
  if code ≠ 1000 ∧ m1.reconnectPending = false ∧ m1.wsRef = some sid then
    (({ m1 with reconnectPending := true }, s1),
      some (if code = 4000 then 1000 else 5000))
  else ((m1, s1), none)

/-- The scheduled reconnect timer fires: clear the pending flag and call
`connect`. -/
def reconnectFire (m : ConnManager) : ConnManager :=
  connect { m with reconnectPending := false }

/-- Handler `ws.onerror`: clears the connecting flag. -/
def wsOnError (m : ConnManager) : ConnManager :=
  { m with isConnecting := false }

/-- The `useEffect` cleanup: cancel both timers, close the current socket
with code 1000 and drop the ref. -/
def unmount (m : ConnManager) : ConnManager :=
  { m with
    heartbeatDeadline := none
    reconnectPending := false
    sockets := (match m.wsRef with
      | some sid => closeSocket m.sockets sid
      | none => m.sockets)
    wsRef := none
    isConnecting := false }

/-- A raw inbound frame arrives on the wire: on parse failure nothing
runs; on success the watchdog is reset (line 32 of `useWebSocket.js`) and
the store dispatch runs. -/
def handleFrame (now : Nat) (parsed : Option WsData) (m : ConnManager) (s : StoreState) :
    ConnManager × StoreState :=
  match parsed with
  | none => (m, s)
  | some d => (resetHeartbeatTimer now m, handleMessage d s)

/-- The events the connection layer reacts to. -/
inductive MEvent where
  | connectReq
  | sockOpened (now : Nat) (sid : Nat)
  | sockClosed (sid : Nat) (code : Nat)
  | frame (now : Nat) (parsed : Option WsData)
  | heartbeatExpiry
  | reconnectFired
  | sockErrored
  | unmountView

/-- One step of the event-driven system. -/
def step (e : MEvent) (sys : ConnManager × StoreState) : ConnManager × StoreState :=
  match e with
  | .connectReq => (connect sys.1, sys.2)
  | .sockOpened now sid => wsOnOpen now sid sys.1 sys.2
  | .sockClosed sid code => (wsOnClose sid code sys.1 sys.2).1
  | .frame now parsed => handleFrame now parsed sys.1 sys.2
  | .heartbeatExpiry => ((heartbeatFire sys.1).1, sys.2)
  | .reconnectFired => (reconnectFire sys.1, sys.2)
  | .sockErrored => (wsOnError sys.1, sys.2)
  | .unmountView => (unmount sys.1, sys.2)

/-- Run a sequence of events. -/
def run (evs : List MEvent) (sys : ConnManager × StoreState) : ConnManager × StoreState :=
  evs.foldl (fun a e => step e a) sys

/-- The system right after the hook mounts for a project handle. -/
def initSys (pid : String) : ConnManager × StoreState :=
  ({ projectId := some pid }, initialStoreState)

/-- A socket counts as live while it is CONNECTING or OPEN. -/
def isLive (k : Socket) : Bool :=
  k.readyState = ReadyState.connecting || k.readyState = ReadyState.opened

/-- Number of connecting-or-open sockets. -/
def liveCount (m : ConnManager) : Nat :=
  (m.sockets.filter isLive).length

/-! ## View classifiers -/

/-- Set `ACTIVITY_TYPES` in the `AgentActivity` component. -/
def ACTIVITY_TYPES : List String := ["thinking", "tool_call", "tool_result", "error"]

/-- Derivation `activitySteps` in the `AgentActivity` component:
`agentSteps.filter(s => ACTIVITY_TYPES.has(s.type))`. -/
def activitySteps (steps : List WsData) : List WsData :=
  steps.filter (fun k => decide (k.type ∈ ACTIVITY_TYPES))

/-- Set `DIALOG_TYPES` in the `ProcessDialog` component (`Editor.jsx`):
DeepSeek model messages and final responses. -/
def DIALOG_TYPES : List String := ["llm_text", "response"]

/-- Derivation `dialogSteps` in the `ProcessDialog` component
(`Editor.jsx`): `agentSteps.filter(s => DIALOG_TYPES.has(s.type))`. -/
def dialogSteps (steps : List WsData) : List WsData :=
  steps.filter (fun k => decide (k.type ∈ DIALOG_TYPES))

/-- The fixed set of `step_type` values carried by `agent_step` frames. -/
def KNOWN_STEP_KINDS : List String := ["thinking", "llm_text", "tool_call", "tool_result"]

/-- The recognized inbound `type` discriminators of `handleMessage`. -/
def recognizedTypes : List String :=
  ["heartbeat", "agent_stream_chunk", "connected", "agent_step",
   "agent_response", "agent_stopped", "ports_update", "error", "user_message"]

/-! ## Outbound command channel -/

/-- The outbound turn payload assembled by `sendMessage`. -/
structure TurnPayload where
  message : String
  images : Option (List String) := none
  attached_files : Option (List AttachedFile) := none
deriving DecidableEq, Repr

/-- Action `sendMessage` in `useStore.js`: if the socket handle is present and
connected, transmit the payload, append the user ChatMessage
(`attachedFiles || undefined` keeps a present list, drops `null`) and
reset status/steps/streaming buffer for the new turn; otherwise do
nothing.  Returns the new state and the transmitted payload, if any. -/
def sendMessage (message : String) (images : Option (List String))
    (attachedFiles : Option (List AttachedFile)) (s : StoreState) :
    StoreState × Option TurnPayload :=
  if s.ws.isSome ∧ s.wsConnected then
    let payload : TurnPayload :=
      { message := message
        images := match images with
          | some l => if l.length > 0 then some l else none
          | none => none
        attached_files := match attachedFiles with
          | some l => if l.length > 0 then
              some (l.map (fun f => { filename := f.filename, content := f.content }))
            else none
          | none => none }
    let s1 := addMessage
      { role := "user", content := some message, images := images,
        attachedFiles := attachedFiles } s
    ({ s1 with agentStatus := "thinking", agentSteps := [], streamingContent := "" },
      some payload)
  else (s, none)

/-- Action `stopAgent` in `useStore.js`: when connected, transmit the stop
directive and optimistically set status to `idle`. -/
def stopAgent (s : StoreState) : StoreState × Bool :=
  if s.ws.isSome ∧ s.wsConnected then
    ({ s with agentStatus := "idle" }, true)
  else (s, false)

/-! ## Status table -/

/-- The status table of spec §4.3, read off the branches of
`handleMessage`: the status each message type forces, or `none` when the
message leaves the status untouched. -/
def statusEffect (d : WsData) : Option String :=
  if d.type = "agent_stream_chunk" then some "working"
  else if d.type = "agent_step" then
    if jsOrOpt d.step_type d.type = "thinking" then some "thinking"
    else if jsOrOpt d.step_type d.type = "llm_text" then some "working"
    else if jsOrOpt d.step_type d.type = "tool_call"
        ∨ jsOrOpt d.step_type d.type = "tool_result" then some "working"
    else none
  else if d.type = "agent_response" then some "done"
  else if d.type = "agent_stopped" then some "idle"
  else if d.type = "error" then some "error"
  else none

/-- The status dictated by the last status-affecting message of a history,
starting from `init` when no message affects the status. -/
def lastStatusFrom (msgs : List WsData) (init : String) : String :=
  msgs.foldl (fun cur d => (statusEffect d).getD cur) init

/-- The effect of the last status-affecting message of a history. -/
def lastStatusEffect (msgs : List WsData) : Option String :=
  (msgs.filterMap statusEffect).getLast?

/-- Concatenation of a list of possibly-missing chunk contents. -/
def concatChunks : List (Option String) → String
  | [] => ""
  | c :: cs => c.getD "" ++ concatChunks cs

/-- The inbound frame carrying one stream chunk. -/
def mkChunk (c : Option String) : WsData :=
  { type := "agent_stream_chunk", content := c }

/-! ## Basic lemmas -/

theorem jsOr_empty_right (a : String) : jsOr a "" = a := by
  unfold jsOr; split <;> simp_all

theorem jsOrOpt_empty_right (c : Option String) : jsOrOpt c "" = c.getD "" := by
  cases c with
  | none => rfl
  | some s => unfold jsOrOpt; split <;> simp_all

theorem handleMessage_chunk (c : Option String) (s : StoreState) :
    handleMessage (mkChunk c) s
      = { s with streamingContent := s.streamingContent ++ c.getD "",
                 agentStatus := "working" } := by
  show setAgentStatus "working" (addStreamingChunk (jsOrOpt c "") s) = _
  unfold setAgentStatus addStreamingChunk
  rw [jsOr_empty_right, jsOrOpt_empty_right, jsOr_empty_right]

theorem processAll_cons (d : WsData) (msgs : List WsData) (s : StoreState) :
    processAll (d :: msgs) s = processAll msgs (handleMessage d s) := rfl

theorem processAll_chunks (chunks : List (Option String)) (s : StoreState) :
    (processAll (chunks.map mkChunk) s).streamingContent
      = s.streamingContent ++ concatChunks chunks := by
  induction chunks generalizing s with
  | nil =>
    show s.streamingContent = s.streamingContent ++ ""
    rw [String.append_empty]
  | cons c cs ih =>
    show (processAll (cs.map mkChunk) (handleMessage (mkChunk c) s)).streamingContent = _
    rw [ih, handleMessage_chunk]
    show s.streamingContent ++ c.getD "" ++ concatChunks cs = _
    rw [String.append_assoc]
    rfl

/-- Claim C4: `streamingContent` equals the running concatenation of
`agent_stream_chunk` contents in arrival order, a missing or empty chunk
leaves it unchanged, and chunks `"Hel"`, `"lo"` from the initial state
yield `"Hello"`. -/
theorem claim_C4 :
    (∀ (chunks : List (Option String)) (s : StoreState),
      (processAll (chunks.map mkChunk) s).streamingContent
        = s.streamingContent ++ concatChunks chunks)
    ∧ (∀ (c : Option String) (s : StoreState), (c = none ∨ c = some "") →
        (handleMessage (mkChunk c) s).streamingContent = s.streamingContent)
    ∧ (processAll [mkChunk (some "Hel"), mkChunk (some "lo")]
        initialStoreState).streamingContent = "Hello" := by
  refine ⟨processAll_chunks, ?_, by rfl⟩
  intro c s hc
  rw [handleMessage_chunk]
  rcases hc with h | h <;> simp [h]

/-- Witness for C4's second conjunct at a concrete empty chunk. -/
theorem claim_C4_witness :
    (handleMessage (mkChunk (some "")) initialStoreState).streamingContent
      = initialStoreState.streamingContent :=
  claim_C4.2.1 (some "") initialStoreState (Or.inr rfl)

/-! ## Claim C1: the status state machine -/

theorem handleMessage_agentStatus (d : WsData) (s : StoreState) :
    (handleMessage d s).agentStatus = (statusEffect d).getD s.agentStatus := by
  unfold handleMessage statusEffect
  split_ifs <;>
    simp_all [setAgentStatus, addStreamingChunk, addMessage, addAgentStep,
      setLiveAssistantContent, clearStreamingContent, updatePorts]

theorem processAll_agentStatus (msgs : List WsData) (s : StoreState) :
    (processAll msgs s).agentStatus = lastStatusFrom msgs s.agentStatus := by
  induction msgs generalizing s with
  | nil => rfl
  | cons d rest ih =>
    rw [processAll_cons, ih, handleMessage_agentStatus]
    rfl

theorem getLast?_cons_getD {α : Type} (e : α) (l : List α) (i : α) :
    ((e :: l).getLast?).getD i = (l.getLast?).getD e := by
  induction l generalizing e i with
  | nil => rfl
  | cons b t ih =>
    rw [List.getLast?_cons_cons, ih b i, ih b e]

theorem lastStatusFrom_eq (msgs : List WsData) (init : String) :
    lastStatusFrom msgs init = (lastStatusEffect msgs).getD init := by
  induction msgs generalizing init with
  | nil => rfl
  | cons d rest ih =>
    have h1 : lastStatusFrom (d :: rest) init
        = lastStatusFrom rest ((statusEffect d).getD init) := rfl
    rw [h1, ih]
    unfold lastStatusEffect
    rw [List.filterMap_cons]
    cases h : statusEffect d with
    | none => simp [h, lastStatusEffect]
    | some e =>
      simp only [h, Option.getD_some]
      exact (getLast?_cons_getD e _ init).symm

/-- Claim C1: after any sequence of decoded inbound messages the status
equals the §4.3 table value of the last status-affecting message
(`thinking` for `agent_step`/`thinking`; `working` for the other known
step kinds and for `agent_stream_chunk`; `done`/`idle`/`error` for
`agent_response`/`agent_stopped`/`error`), with `connected`, `heartbeat`,
`ports_update`, `user_message` and unknown types leaving it unchanged —
status is a pure function of the message history. -/
theorem claim_C1 :
    (∀ (msgs : List WsData) (s : StoreState),
      (processAll msgs s).agentStatus = (lastStatusEffect msgs).getD s.agentStatus)
    ∧ (∀ msgs : List WsData,
      (processAll msgs initialStoreState).agentStatus = (lastStatusEffect msgs).getD "idle")
    ∧ (∀ d : WsData, d.type = "agent_step" →
        (d.step_type = some "thinking" → statusEffect d = some "thinking")
        ∧ (d.step_type = some "llm_text" ∨ d.step_type = some "tool_call"
            ∨ d.step_type = some "tool_result" → statusEffect d = some "working"))
    ∧ (∀ d : WsData, d.type = "agent_stream_chunk" → statusEffect d = some "working")
    ∧ (∀ d : WsData, d.type = "agent_response" → statusEffect d = some "done")
    ∧ (∀ d : WsData, d.type = "agent_stopped" → statusEffect d = some "idle")
    ∧ (∀ d : WsData, d.type = "error" → statusEffect d = some "error")
    ∧ (∀ d : WsData, d.type = "connected" ∨ d.type = "heartbeat"
        ∨ d.type = "ports_update" ∨ d.type = "user_message"
        ∨ d.type ∉ recognizedTypes → statusEffect d = none) := by
  refine ⟨?_, ?_, ?_, ?_, ?_, ?_, ?_, ?_⟩
  · intro msgs s
    rw [processAll_agentStatus, lastStatusFrom_eq]
  · intro msgs
    rw [processAll_agentStatus, lastStatusFrom_eq]
    rfl
  · intro d hd
    constructor
    · intro hst
      simp [statusEffect, hd, hst, jsOrOpt]
    · intro hst
      rcases hst with h | h | h <;> simp [statusEffect, hd, h, jsOrOpt]
  · intro d hd; simp [statusEffect, hd]
  · intro d hd; simp [statusEffect, hd]
  · intro d hd; simp [statusEffect, hd]
  · intro d hd; simp [statusEffect, hd]
  · intro d hd
    rcases hd with h | h | h | h | h <;>
      simp_all [statusEffect, recognizedTypes]

/-- Witness for C1 at concrete messages: a thinking step, a chunk, a
terminal response, and a full concrete history ending in `agent_stopped`. -/
theorem claim_C1_witness :
    statusEffect { type := "agent_step", step_type := some "thinking" } = some "thinking"
    ∧ statusEffect { type := "agent_stream_chunk" } = some "working"
    ∧ statusEffect { type := "agent_response" } = some "done"
    ∧ statusEffect { type := "ports_update" } = none
    ∧ (processAll [{ type := "agent_step", step_type := some "thinking" },
        { type := "agent_stopped" }, { type := "heartbeat" }]
        initialStoreState).agentStatus
      = (lastStatusEffect [{ type := "agent_step", step_type := some "thinking" },
        { type := "agent_stopped" }, { type := "heartbeat" }]).getD "idle" :=
  ⟨(claim_C1.2.2.1 _ rfl).1 rfl,
   claim_C1.2.2.2.1 _ rfl,
   claim_C1.2.2.2.2.1 _ rfl,
   claim_C1.2.2.2.2.2.2.2 _ (Or.inr (Or.inr (Or.inl rfl))),
   claim_C1.2.1 _⟩

/-! ## Claim C2: sending a new turn -/

/-- Claim C2: with the connection open, `sendMessage` clears
`streamingContent`, clears `liveAssistantContent`, clears the Step
history, appends exactly one user ChatMessage and sets status to
`thinking`; with the connection not open it is a no-op. -/
theorem claim_C2 :
    ∀ (message : String) (images : Option (List String))
      (attachedFiles : Option (List AttachedFile)) (s : StoreState),
    (s.ws.isSome = true ∧ s.wsConnected = true →
      (sendMessage message images attachedFiles s).1.streamingContent = ""
      ∧ (sendMessage message images attachedFiles s).1.liveAssistantContent = ""
      ∧ (sendMessage message images attachedFiles s).1.agentSteps = []
      ∧ (sendMessage message images attachedFiles s).1.messages
          = s.messages ++ [{ role := "user"
                             content := some message
                             images := images
                             attachedFiles := attachedFiles }]
      ∧ (sendMessage message images attachedFiles s).1.agentStatus = "thinking")
    ∧ (¬(s.ws.isSome = true ∧ s.wsConnected = true) →
        sendMessage message images attachedFiles s = (s, none)) := by
  intro message images attachedFiles s
  constructor
  · intro h
    simp [sendMessage, h, addMessage]
  · intro h
    unfold sendMessage
    rw [if_neg h]

/-- Witness for C2 at a connected and at a disconnected concrete state. -/
theorem claim_C2_witness :
    ((sendMessage "hi" none none
        { ws := some 0, wsConnected := true }).1.agentStatus = "thinking")
    ∧ (sendMessage "hi" none none initialStoreState
        = (initialStoreState, none)) :=
  ⟨((claim_C2 "hi" none none { ws := some 0, wsConnected := true }).1
      ⟨rfl, rfl⟩).2.2.2.2,
   (claim_C2 "hi" none none initialStoreState).2 (by simp [initialStoreState])⟩

/-! ## Claim C8: terminal messages -/

/-- Claim C8: `agent_response`, `agent_stopped` and `error` each append
exactly one ChatMessage (assistant with payload content, assistant with
fallback text when content is empty or absent, and error role
respectively), clear both streaming buffers, and leave the pre-existing
ChatMessage history and the Step history otherwise unchanged. -/
theorem claim_C8 :
    ∀ (d : WsData) (s : StoreState),
    (d.type = "agent_response" ∨ d.type = "agent_stopped" ∨ d.type = "error") →
      (handleMessage d s).streamingContent = ""
      ∧ (handleMessage d s).liveAssistantContent = ""
      ∧ (handleMessage d s).agentSteps = s.agentSteps
      ∧ (handleMessage d s).projectPorts = s.projectPorts
      ∧ (handleMessage d s).messages = s.messages ++
          [if d.type = "agent_response" then
             ({ role := "assistant", content := d.content } : ChatMessage)
           else if d.type = "agent_stopped" then
             ({ role := "assistant"
                content := some (jsOrOpt d.content "⏹️ Агент остановлен") } : ChatMessage)
           else { role := "error", content := d.content }]
      ∧ (d.type = "agent_stopped" → d.content = none ∨ d.content = some "" →
          (handleMessage d s).messages = s.messages ++
            [{ role := "assistant", content := some "⏹️ Агент остановлен" }]) := by
  intro d s h
  rcases h with h | h | h <;>
    simp_all [handleMessage, addMessage, clearStreamingContent,
      setLiveAssistantContent, setAgentStatus] <;>
    rintro (hc | hc) <;> simp [hc, jsOrOpt]

/-- Witness for C8 at a concrete `agent_stopped` frame with no content. -/
theorem claim_C8_witness :
    (handleMessage { type := "agent_stopped" } initialStoreState).messages
      = initialStoreState.messages ++
        [{ role := "assistant", content := some "⏹️ Агент остановлен" }] :=
  (claim_C8 { type := "agent_stopped" } initialStoreState
    (Or.inr (Or.inl rfl))).2.2.2.2.2 rfl (Or.inl rfl)

/-! ## Claim C9: totality of the frame handler -/

/-- Claim C9: the frame handler is total — a malformed (unparseable)
payload is caught and the frame dropped with all store state unchanged,
and a well-formed frame whose `type` is outside the recognized set is
dropped with no change to history, status or buffers. -/
theorem claim_C9 :
    ∀ (s : StoreState),
    wsOnMessage none s = s
    ∧ (∀ (now : Nat) (m : ConnManager), handleFrame now none m s = (m, s))
    ∧ (∀ d : WsData, d.type ∉ recognizedTypes → handleMessage d s = s) := by
  intro s
  refine ⟨rfl, fun _ _ => rfl, ?_⟩
  intro d h
  simp only [recognizedTypes, List.mem_cons, List.not_mem_nil, or_false] at h
  push_neg at h
  obtain ⟨h1, h2, h3, h4, h5, h6, h7, h8, h9⟩ := h
  simp [handleMessage, h1, h2, h3, h4, h5, h6, h7, h8, h9]

/-- Witness for C9 at a concrete unknown frame type. -/
theorem claim_C9_witness :
    handleMessage { type := "mystery" } initialStoreState = initialStoreState :=
  (claim_C9 initialStoreState).2.2 { type := "mystery" } (by decide)

/-! ## Claim C10: agent_step with an unknown step kind -/

/-- Claim C10: an `agent_step` whose `step_type` is outside the four known
kinds is still appended to the Step history with its kind recorded as
given, while status, both streaming buffers and the chat history stay
unchanged. -/
theorem claim_C10 :
    ∀ (d : WsData) (s : StoreState),
    d.type = "agent_step" →
    jsOrOpt d.step_type d.type ∉ KNOWN_STEP_KINDS →
      (handleMessage d s).agentSteps = s.agentSteps ++ [toStep d]
      ∧ (∀ k, d.step_type = some k → k ≠ "" → (toStep d).type = k)
      ∧ (handleMessage d s).agentStatus = s.agentStatus
      ∧ (handleMessage d s).streamingContent = s.streamingContent
      ∧ (handleMessage d s).liveAssistantContent = s.liveAssistantContent
      ∧ (handleMessage d s).messages = s.messages
      ∧ (handleMessage d s).projectPorts = s.projectPorts := by
  intro d s ht hk
  rw [ht] at hk
  simp only [KNOWN_STEP_KINDS, List.mem_cons, List.not_mem_nil, or_false] at hk
  push_neg at hk
  obtain ⟨k1, k2, k3, k4⟩ := hk
  refine ⟨?_, ?_, ?_⟩
  · simp [handleMessage, ht, k1, k2, k3, k4, addAgentStep]
  · intro k hst hne
    simp [toStep, jsOrOpt, hst, hne]
  · simp [handleMessage, ht, k1, k2, k3, k4, addAgentStep]

/-- Witness for C10 at a concrete step of unknown kind. -/
theorem claim_C10_witness :
    (handleMessage { type := "agent_step", step_type := some "weird" }
        initialStoreState).agentSteps
      = initialStoreState.agentSteps
          ++ [toStep { type := "agent_step", step_type := some "weird" }]
    ∧ (toStep { type := "agent_step", step_type := some "weird" }).type = "weird"
    ∧ (handleMessage { type := "agent_step", step_type := some "weird" }
        initialStoreState).agentStatus = initialStoreState.agentStatus :=
  ⟨(claim_C10 _ initialStoreState rfl (by decide)).1,
   (claim_C10 { type := "agent_step", step_type := some "weird" }
      initialStoreState rfl (by decide)).2.1 "weird" rfl (by decide),
   (claim_C10 _ initialStoreState rfl (by decide)).2.2.1⟩

/-! ## Claim C3: the two classified views -/

/-- Claim C3: over the fixed kind set (thinking, llm_text, tool_call,
tool_result), every Step belongs to exactly one of the Activity view
(`ACTIVITY_TYPES`: thinking, tool_call, tool_result, error) and the
Dialogue view (`DIALOG_TYPES`: llm_text, response — restricted to the
fixed kind set that is exactly llm_text); the two views are disjoint on
every step, and both are computed purely from the step history. -/
theorem claim_C3 :
    ∀ (steps : List WsData) (k : WsData),
    ¬(k ∈ activitySteps steps ∧ k ∈ dialogSteps steps)
    ∧ (k ∈ steps → k.type ∈ KNOWN_STEP_KINDS →
        (k ∈ activitySteps steps ∧ k ∉ dialogSteps steps)
        ∨ (k ∈ dialogSteps steps ∧ k ∉ activitySteps steps))
    ∧ (k ∈ activitySteps steps → k ∈ steps ∧ k.type ∈ ACTIVITY_TYPES)
    ∧ (k ∈ dialogSteps steps → k ∈ steps ∧ k.type ∈ DIALOG_TYPES)
    ∧ (k ∈ steps → k.type ∈ KNOWN_STEP_KINDS →
        (k ∈ dialogSteps steps ↔ k.type = "llm_text")) := by
  intro steps k
  refine ⟨?_, ?_, ?_, ?_, ?_⟩
  · rintro ⟨ha, hd⟩
    simp only [activitySteps, dialogSteps, List.mem_filter,
      decide_eq_true_eq] at ha hd
    rcases (by simpa [DIALOG_TYPES] using hd.2 : k.type = "llm_text" ∨ k.type = "response")
        with h | h <;>
      · rw [h] at ha
        simp [ACTIVITY_TYPES] at ha
  · intro hmem hknown
    by_cases hl : k.type = "llm_text"
    · right
      constructor
      · simp only [dialogSteps, List.mem_filter, decide_eq_true_eq]
        refine ⟨hmem, ?_⟩
        rw [hl]
        simp [DIALOG_TYPES]
      · simp only [activitySteps, List.mem_filter, decide_eq_true_eq, not_and]
        intro _
        rw [hl]
        simp [ACTIVITY_TYPES]
    · left
      constructor
      · simp only [activitySteps, List.mem_filter, decide_eq_true_eq]
        refine ⟨hmem, ?_⟩
        simp only [KNOWN_STEP_KINDS, List.mem_cons, List.not_mem_nil,
          or_false] at hknown
        rcases hknown with h | h | h | h
        · rw [h]; simp [ACTIVITY_TYPES]
        · exact absurd h hl
        · rw [h]; simp [ACTIVITY_TYPES]
        · rw [h]; simp [ACTIVITY_TYPES]
      · simp only [dialogSteps, List.mem_filter, decide_eq_true_eq, not_and]
        intro _
        simp only [KNOWN_STEP_KINDS, List.mem_cons, List.not_mem_nil,
          or_false] at hknown
        rcases hknown with h | h | h | h
        · rw [h]; simp [DIALOG_TYPES]
        · exact absurd h hl
        · rw [h]; simp [DIALOG_TYPES]
        · rw [h]; simp [DIALOG_TYPES]
  · intro h
    simpa only [activitySteps, List.mem_filter, decide_eq_true_eq] using h
  · intro h
    simpa only [dialogSteps, List.mem_filter, decide_eq_true_eq] using h
  · intro hmem hknown
    constructor
    · intro hd
      simp only [dialogSteps, List.mem_filter, decide_eq_true_eq] at hd
      rcases (by simpa [DIALOG_TYPES] using hd.2 : k.type = "llm_text" ∨ k.type = "response")
          with h | h
      · exact h
      · rw [h] at hknown
        simp [KNOWN_STEP_KINDS] at hknown
    · intro hl
      simp only [dialogSteps, List.mem_filter, decide_eq_true_eq]
      refine ⟨hmem, ?_⟩
      rw [hl]
      simp [DIALOG_TYPES]

/-- Witness for C3 on a concrete two-step history: the thinking step sits
in the Activity view only, and within the fixed kind set the Dialogue
view selects exactly the llm_text step. -/
theorem claim_C3_witness :
    ((({ type := "thinking" } : WsData) ∈ activitySteps
        [{ type := "thinking" }, { type := "llm_text" }]
      ∧ ({ type := "thinking" } : WsData) ∉ dialogSteps
        [{ type := "thinking" }, { type := "llm_text" }])
    ∨ (({ type := "thinking" } : WsData) ∈ dialogSteps
        [{ type := "thinking" }, { type := "llm_text" }]
      ∧ ({ type := "thinking" } : WsData) ∉ activitySteps
        [{ type := "thinking" }, { type := "llm_text" }]))
    ∧ (({ type := "llm_text" } : WsData) ∈ dialogSteps
        [{ type := "thinking" }, { type := "llm_text" }]
      ↔ ({ type := "llm_text" } : WsData).type = "llm_text") :=
  ⟨(claim_C3 [{ type := "thinking" }, { type := "llm_text" }]
      { type := "thinking" }).2.1 (by decide) (by decide),
   (claim_C3 [{ type := "thinking" }, { type := "llm_text" }]
      { type := "llm_text" }).2.2.2.2 (by decide) (by decide)⟩

/-! ## Claim C5: the reconnect policy -/

/-- Claim C5: after a close event a reconnect is scheduled iff the code is
not 1000, no reconnect is pending and the closed socket is still current;
the delay is 1000 ms for the watchdog code 4000 and 5000 ms for other
abnormal closes; a code-1000 close never schedules a reconnect. -/
theorem claim_C5 :
    ∀ (m : ConnManager) (s : StoreState) (sid code : Nat),
    (wsOnClose sid code m s).2
      = (if code ≠ 1000 ∧ m.reconnectPending = false ∧ m.wsRef = some sid
         then some (if code = 4000 then 1000 else 5000) else none)
    ∧ (wsOnClose sid 1000 m s).2 = none
    ∧ (((wsOnClose sid code m s).2).isSome
        ↔ code ≠ 1000 ∧ m.reconnectPending = false ∧ m.wsRef = some sid) := by
  intro m s sid code
  refine ⟨?_, ?_, ?_⟩
  · simp only [wsOnClose]
    split_ifs <;> simp_all
  · simp only [wsOnClose]
    split_ifs with h
    · exact absurd rfl h.1
    · rfl
  · simp only [wsOnClose]
    split_ifs with h <;> simp [h]

/-- Witness for C5: an abnormal non-watchdog close of the current socket
with nothing pending schedules the 5-second retry. -/
theorem claim_C5_witness :
    (wsOnClose 0 1006 { wsRef := some 0 } initialStoreState).2 = some 5000 := by
  have h := (claim_C5 { wsRef := some 0 } initialStoreState 0 1006).1
  rw [h]
  rfl

/-! ## Claim C6: the heartbeat watchdog -/

/-- Claim C6: every inbound message of any type resets the single
watchdog timer to its fixed 45-second timeout; on expiry with the current
socket OPEN, a close with the distinguished code 4000 is issued, and a
code-4000 close (no reconnect pending, socket still current) schedules the
fast 1-second retry rather than the ordinary 5-second one. -/
theorem claim_C6 :
    HEARTBEAT_TIMEOUT_MS = 45000
    ∧ (∀ (now : Nat) (d : WsData) (m : ConnManager) (s : StoreState),
        (handleFrame now (some d) m s).1.heartbeatDeadline
          = some (now + HEARTBEAT_TIMEOUT_MS))
    ∧ (∀ (m : ConnManager) (sid : Nat), m.wsRef = some sid →
        readyStateOf m sid = some ReadyState.opened →
        (heartbeatFire m).2 = some (sid, 4000))
    ∧ (∀ (m : ConnManager) (s : StoreState) (sid : Nat),
        m.reconnectPending = false → m.wsRef = some sid →
        (wsOnClose sid 4000 m s).2 = some 1000) := by
  refine ⟨rfl, fun _ _ _ _ => rfl, ?_, ?_⟩
  · intro m sid h1 h2
    simp [heartbeatFire, h1, h2]
  · intro m s sid h1 h2
    simp [wsOnClose, h1, h2]

/-- Witness for C6: a manager whose only socket is open and current is
closed with code 4000 on expiry, and such a close schedules the 1-second
retry. -/
theorem claim_C6_witness :
    (heartbeatFire { projectId := some "p"
                     sockets := [{ id := 0, readyState := ReadyState.opened }]
                     wsRef := some 0 }).2 = some (0, 4000)
    ∧ (wsOnClose 0 4000 { wsRef := some 0 } initialStoreState).2 = some 1000 :=
  ⟨claim_C6.2.2.1 _ 0 rfl (by decide),
   claim_C6.2.2.2 _ initialStoreState 0 rfl rfl⟩

/-! ## Claim C7: at most one connecting-or-open socket -/

/-- Well-formedness of the manager: socket ids are bounded by the fresh
counter and distinct, and every live (connecting-or-open) socket is the
one `wsRef` points to. -/
def WF (m : ConnManager) : Prop :=
  (∀ k ∈ m.sockets, k.id < m.nextId)
  ∧ (m.sockets.map Socket.id).Nodup
  ∧ (∀ k ∈ m.sockets, isLive k = true → m.wsRef = some k.id)

theorem id_map_closeSocket (l : List Socket) (sid : Nat) :
    (closeSocket l sid).map Socket.id = l.map Socket.id := by
  unfold closeSocket
  rw [List.map_map]
  apply List.map_congr_left
  intro k _
  simp only [Function.comp]
  split <;> rfl

theorem id_map_markClosed (l : List Socket) (sid : Nat) :
    (markClosed l sid).map Socket.id = l.map Socket.id := by
  unfold markClosed
  rw [List.map_map]
  apply List.map_congr_left
  intro k _
  simp only [Function.comp]
  split <;> rfl

theorem id_map_markOpened (l : List Socket) (sid : Nat) :
    (markOpened l sid).map Socket.id = l.map Socket.id := by
  unfold markOpened
  rw [List.map_map]
  apply List.map_congr_left
  intro k _
  simp only [Function.comp]
  split <;> rfl

theorem mem_closeSocket_elim {l : List Socket} {sid : Nat} {k : Socket}
    (h : k ∈ closeSocket l sid) :
    ∃ k0 ∈ l, k.id = k0.id ∧ (isLive k = true → k = k0 ∧ k0.id ≠ sid) := by
  unfold closeSocket at h
  obtain ⟨k0, hk0, hEq⟩ := List.mem_map.1 h
  by_cases hc : k0.id = sid
      ∧ (k0.readyState = ReadyState.connecting ∨ k0.readyState = ReadyState.opened)
  · rw [if_pos hc] at hEq
    refine ⟨k0, hk0, by rw [← hEq], ?_⟩
    intro hl
    rw [← hEq] at hl
    simp [isLive] at hl
  · rw [if_neg hc] at hEq
    refine ⟨k0, hk0, by rw [← hEq], ?_⟩
    intro hl
    refine ⟨hEq.symm, ?_⟩
    intro hsid
    apply hc
    rw [← hEq] at hl
    refine ⟨hsid, ?_⟩
    simpa [isLive] using hl

theorem mem_markClosed_elim {l : List Socket} {sid : Nat} {k : Socket}
    (h : k ∈ markClosed l sid) :
    ∃ k0 ∈ l, k.id = k0.id ∧ (isLive k = true → k = k0) := by
  unfold markClosed at h
  obtain ⟨k0, hk0, hEq⟩ := List.mem_map.1 h
  by_cases hc : k0.id = sid
  · rw [if_pos hc] at hEq
    refine ⟨k0, hk0, by rw [← hEq], ?_⟩
    intro hl
    rw [← hEq] at hl
    simp [isLive] at hl
  · rw [if_neg hc] at hEq
    exact ⟨k0, hk0, by rw [← hEq], fun _ => hEq.symm⟩

theorem mem_markOpened_elim {l : List Socket} {sid : Nat} {k : Socket}
    (h : k ∈ markOpened l sid) :
    ∃ k0 ∈ l, k.id = k0.id ∧ (k.id = sid ∨ k = k0) := by
  unfold markOpened at h
  obtain ⟨k0, hk0, hEq⟩ := List.mem_map.1 h
  by_cases hc : k0.id = sid
  · rw [if_pos hc] at hEq
    exact ⟨k0, hk0, by rw [← hEq], Or.inl (by rw [← hEq]; exact hc)⟩
  · rw [if_neg hc] at hEq
    exact ⟨k0, hk0, by rw [← hEq], Or.inr hEq.symm⟩

theorem readyStateOf_elim {m : ConnManager} {sid : Nat} {st : ReadyState}
    (h : readyStateOf m sid = some st) :
    ∃ k ∈ m.sockets, k.id = sid ∧ k.readyState = st := by
  unfold readyStateOf at h
  cases hf : m.sockets.find? (fun k => k.id = sid) with
  | none => rw [hf] at h; simp at h
  | some k =>
    rw [hf] at h
    have hm := List.mem_of_find?_eq_some hf
    have hp := List.find?_some hf
    simp only [decide_eq_true_eq] at hp
    exact ⟨k, hm, hp, by simpa using h⟩

theorem length_le_one_of_nodup_const {α : Type} {l : List α} {c : α}
    (hn : l.Nodup) (hc : ∀ x ∈ l, x = c) : l.length ≤ 1 := by
  match l with
  | [] => simp
  | [a] => simp
  | a :: b :: t =>
    exfalso
    have ha := hc a (by simp)
    have hb := hc b (by simp)
    rw [List.nodup_cons] at hn
    exact hn.1 (by rw [ha, ← hb]; simp)

theorem liveCount_le_one {m : ConnManager} (h : WF m) : liveCount m ≤ 1 := by
  obtain ⟨-, h2, h3⟩ := h
  unfold liveCount
  cases hw : m.wsRef with
  | none =>
    have hnil : m.sockets.filter isLive = [] := by
      rw [List.eq_nil_iff_forall_not_mem]
      intro k hk
      have hx := h3 k (List.mem_of_mem_filter hk) (List.of_mem_filter hk)
      rw [hw] at hx
      exact Option.noConfusion hx
    rw [hnil]
    simp
  | some r =>
    rw [← List.length_map (m.sockets.filter isLive) Socket.id]
    apply length_le_one_of_nodup_const (c := r)
    · exact ((List.filter_sublist m.sockets).map Socket.id).nodup h2
    · intro x hx
      obtain ⟨k, hk, rfl⟩ := List.mem_map.1 hx
      have hx2 := h3 k (List.mem_of_mem_filter hk) (List.of_mem_filter hk)
      rw [hw] at hx2
      exact (Option.some.inj hx2).symm

theorem WF_connect {m : ConnManager} (h : WF m) : WF (connect m) := by
  obtain ⟨h1, h2, h3⟩ := h
  unfold connect
  split_ifs with g1 g2 g3
  · exact ⟨h1, h2, h3⟩
  · exact ⟨h1, h2, h3⟩
  · exact ⟨h1, h2, h3⟩
  refine ⟨?_, ?_, ?_⟩
  · intro k hk
    rcases List.mem_append.1 hk with hk | hk
    · have hid : ∃ k0 ∈ m.sockets, k.id = k0.id := by
        cases hw : m.wsRef with
        | none => rw [hw] at hk; exact ⟨k, hk, rfl⟩
        | some sid =>
          rw [hw] at hk
          obtain ⟨k0, hk0, hid, -⟩ := mem_closeSocket_elim hk
          exact ⟨k0, hk0, hid⟩
      obtain ⟨k0, hk0, hid⟩ := hid
      calc k.id = k0.id := hid
        _ < m.nextId := h1 k0 hk0
        _ < m.nextId + 1 := Nat.lt_succ_self _
    · rw [List.mem_singleton.1 hk]
      exact Nat.lt_succ_self _
  · rw [List.map_append]
    have hids : (match m.wsRef with
        | some sid => closeSocket m.sockets sid
        | none => m.sockets).map Socket.id = m.sockets.map Socket.id := by
      cases m.wsRef with
      | none => rfl
      | some sid => exact id_map_closeSocket m.sockets sid
    rw [hids]
    rw [List.nodup_append]
    refine ⟨h2, List.nodup_singleton _, ?_⟩
    intro x hx hx2
    have hxe : x = m.nextId := by simpa using hx2
    obtain ⟨k0, hk0, hid⟩ := List.mem_map.1 hx
    have hlt := h1 k0 hk0
    rw [hid, hxe] at hlt
    exact Nat.lt_irrefl _ hlt
  · intro k hk hl
    rcases List.mem_append.1 hk with hk | hk
    · exfalso
      cases hw : m.wsRef with
      | none =>
        rw [hw] at hk
        have hx := h3 k hk hl
        rw [hw] at hx
        exact Option.noConfusion hx
      | some sid =>
        rw [hw] at hk
        obtain ⟨k0, hk0, -, hlf⟩ := mem_closeSocket_elim hk
        obtain ⟨hkk, hne⟩ := hlf hl
        have hx := h3 k0 hk0 (hkk ▸ hl)
        rw [hw] at hx
        exact hne (Option.some.inj hx).symm
    · rw [List.mem_singleton.1 hk]

theorem WF_wsOnOpen {m : ConnManager} {s : StoreState} {now sid : Nat}
    (h : WF m) : WF (wsOnOpen now sid m s).1 := by
  obtain ⟨h1, h2, h3⟩ := h
  unfold wsOnOpen
  split_ifs with g
  · have hcur : m.wsRef = some sid := by
      obtain ⟨k0, hk0, hid, hst⟩ := readyStateOf_elim g
      have := h3 k0 hk0 (by simp [isLive, hst])
      rw [this, hid]
    refine ⟨?_, ?_, ?_⟩
    · intro k hk
      obtain ⟨k0, hk0, hid, -⟩ := mem_markOpened_elim hk
      rw [hid]
      exact h1 k0 hk0
    · rw [id_map_markOpened]
      exact h2
    · intro k hk hl
      obtain ⟨k0, hk0, -, hor⟩ := mem_markOpened_elim hk
      rcases hor with hor | hor
      · rw [hcur, hor]
      · rw [hor] at hl ⊢
        exact h3 k0 hk0 hl
  · exact ⟨h1, h2, h3⟩

theorem WF_wsOnClose {m : ConnManager} {s : StoreState} {sid code : Nat}
    (h : WF m) : WF ((wsOnClose sid code m s).1).1 := by
  obtain ⟨h1, h2, h3⟩ := h
  have b1 : ∀ k ∈ markClosed m.sockets sid, k.id < m.nextId := by
    intro k hk
    obtain ⟨k0, hk0, hid, -⟩ := mem_markClosed_elim hk
    rw [hid]
    exact h1 k0 hk0
  have b2 : ((markClosed m.sockets sid).map Socket.id).Nodup := by
    rw [id_map_markClosed]
    exact h2
  have b3 : ∀ k ∈ markClosed m.sockets sid, isLive k = true → m.wsRef = some k.id := by
    intro k hk hl
    obtain ⟨k0, hk0, -, hlf⟩ := mem_markClosed_elim hk
    have hkk := hlf hl
    rw [hkk] at hl
    rw [hkk]
    exact h3 k0 hk0 hl
  simp only [wsOnClose]
  split_ifs with g
  all_goals exact ⟨b1, b2, b3⟩

theorem WF_heartbeatFire {m : ConnManager} (h : WF m) : WF (heartbeatFire m).1 := by
  obtain ⟨h1, h2, h3⟩ := h
  rcases Option.eq_none_or_eq_some m.wsRef with hw | ⟨sid, hw⟩
  · simp only [heartbeatFire, hw]
    refine ⟨h1, h2, ?_⟩
    intro k hk hl
    rw [← hw]
    exact h3 k hk hl
  · simp only [heartbeatFire, hw]
    split_ifs with g
    · refine ⟨?_, ?_, ?_⟩
      · intro k hk
        obtain ⟨k0, hk0, hid, -⟩ := mem_closeSocket_elim hk
        rw [hid]
        exact h1 k0 hk0
      · show ((closeSocket m.sockets sid).map Socket.id).Nodup
        rw [id_map_closeSocket]
        exact h2
      · intro k hk hl
        obtain ⟨k0, hk0, -, hlf⟩ := mem_closeSocket_elim hk
        obtain ⟨hkk, -⟩ := hlf hl
        rw [hkk] at hl
        rw [hkk, ← hw]
        exact h3 k0 hk0 hl
    · refine ⟨h1, h2, ?_⟩
      intro k hk hl
      rw [← hw]
      exact h3 k hk hl

theorem WF_unmount {m : ConnManager} (h : WF m) : WF (unmount m) := by
  obtain ⟨h1, h2, h3⟩ := h
  unfold unmount
  refine ⟨?_, ?_, ?_⟩
  · intro k hk
    cases hw : m.wsRef with
    | none =>
      rw [hw] at hk
      exact h1 k hk
    | some sid =>
      rw [hw] at hk
      obtain ⟨k0, hk0, hid, -⟩ := mem_closeSocket_elim hk
      rw [hid]
      exact h1 k0 hk0
  · cases hw : m.wsRef with
    | none => exact h2
    | some sid =>
      show ((closeSocket m.sockets sid).map Socket.id).Nodup
      rw [id_map_closeSocket]
      exact h2
  · intro k hk hl
    exfalso
    cases hw : m.wsRef with
    | none =>
      rw [hw] at hk
      have hx := h3 k hk hl
      rw [hw] at hx
      exact Option.noConfusion hx
    | some sid =>
      rw [hw] at hk
      obtain ⟨k0, hk0, -, hlf⟩ := mem_closeSocket_elim hk
      obtain ⟨hkk, hne⟩ := hlf hl
      have hx := h3 k0 hk0 (hkk ▸ hl)
      rw [hw] at hx
      exact hne (Option.some.inj hx).symm

theorem WF_fields {m m' : ConnManager} (h : WF m)
    (hs : m'.sockets = m.sockets) (hn : m'.nextId = m.nextId)
    (hw : m'.wsRef = m.wsRef) : WF m' := by
  obtain ⟨h1, h2, h3⟩ := h
  refine ⟨?_, ?_, ?_⟩
  · intro k hk
    rw [hs] at hk
    rw [hn]
    exact h1 k hk
  · rw [hs]
    exact h2
  · intro k hk hl
    rw [hs] at hk
    rw [hw]
    exact h3 k hk hl

theorem WF_step {sys : ConnManager × StoreState} (e : MEvent) (h : WF sys.1) :
    WF (step e sys).1 := by
  cases e with
  | connectReq => exact WF_connect h
  | sockOpened now sid => exact WF_wsOnOpen h
  | sockClosed sid code => exact WF_wsOnClose h
  | frame now parsed =>
    cases parsed with
    | none => exact h
    | some d => exact WF_fields h rfl rfl rfl
  | heartbeatExpiry => exact WF_heartbeatFire h
  | reconnectFired => exact WF_connect (WF_fields h rfl rfl rfl)
  | sockErrored => exact WF_fields h rfl rfl rfl
  | unmountView => exact WF_unmount h

theorem WF_run (evs : List MEvent) (sys : ConnManager × StoreState)
    (h : WF sys.1) : WF (run evs sys).1 := by
  induction evs generalizing sys with
  | nil => exact h
  | cons e rest ih => exact ih (step e sys) (WF_step e h)

theorem WF_init (pid : String) : WF (initSys pid).1 := by
  refine ⟨?_, ?_, ?_⟩ <;> simp [initSys, WF]

theorem connect_noop {m : ConnManager}
    (hm : m.isConnecting = true ∨ currentReadyState m = some ReadyState.connecting
      ∨ currentReadyState m = some ReadyState.opened) : connect m = m := by
  unfold connect
  split_ifs with g1 g2 g3
  · rfl
  · rfl
  · rfl
  · exfalso
    rcases hm with h | h | h
    · exact g2 (Or.inl h)
    · exact g2 (Or.inr h)
    · exact g3 h

theorem connect_idem (m : ConnManager) : connect (connect m) = connect m := by
  by_cases g1 : m.projectId.isNone = true
  · have e : connect m = m := by
      unfold connect
      rw [if_pos g1]
    rw [e, e]
  · by_cases g2 : m.isConnecting = true
      ∨ currentReadyState m = some ReadyState.connecting
    · have e : connect m = m := by
        unfold connect
        rw [if_neg g1, if_pos g2]
      rw [e, e]
    · by_cases g3 : currentReadyState m = some ReadyState.opened
      · have e : connect m = m := by
          unfold connect
          rw [if_neg g1, if_neg g2, if_pos g3]
        rw [e, e]
      · have e : connect m
            = { m with
                isConnecting := true
                sockets := (match m.wsRef with
                  | some sid => closeSocket m.sockets sid
                  | none => m.sockets)
                  ++ [{ id := m.nextId, readyState := ReadyState.connecting }]
                reconnectPending := false
                wsRef := some m.nextId
                nextId := m.nextId + 1 } := by
          unfold connect
          rw [if_neg g1, if_neg g2, if_neg g3]
        rw [e]
        exact connect_noop (Or.inl rfl)

/-- Claim C7: calling `connect` while a connection is already connecting
or open is a no-op; `connect` is idempotent; every manager state reachable
by events from the initial state has at most one connecting-or-open
socket; and connecting twice in immediate succession followed by the open
event yields exactly one open socket. -/
theorem claim_C7 :
    (∀ m : ConnManager,
      m.isConnecting = true ∨ currentReadyState m = some ReadyState.connecting
        ∨ currentReadyState m = some ReadyState.opened →
      connect m = m)
    ∧ (∀ m : ConnManager, connect (connect m) = connect m)
    ∧ (∀ (pid : String) (evs : List MEvent),
        liveCount (run evs (initSys pid)).1 ≤ 1)
    ∧ ((run [MEvent.connectReq, MEvent.connectReq, MEvent.sockOpened 0 0]
        (initSys "p")).1.sockets.filter
          (fun k => decide (k.readyState = ReadyState.opened))).length = 1 := by
  refine ⟨fun m hm => connect_noop hm, connect_idem, ?_, ?_⟩
  · intro pid evs
    exact liveCount_le_one (WF_run evs (initSys pid) (WF_init pid))
  · rfl

/-- Witness for C7: `connect` on a manager whose current socket is open
changes nothing. -/
theorem claim_C7_witness :
    connect { projectId := some "p"
              sockets := [{ id := 0, readyState := ReadyState.opened }]
              wsRef := some 0
              nextId := 1 }
      = { projectId := some "p"
          sockets := [{ id := 0, readyState := ReadyState.opened }]
          wsRef := some 0
          nextId := 1 } :=
  claim_C7.1 _ (Or.inr (Or.inr (by decide)))

end AiAgent
